import Mathlib

/-!
Shallow embedding of the adaptive combat NPC controller of
`project-chimera-combat-evolution`, covering the `EnemyNPC` class of
`src/npc.py` and the `AdaptiveNPC` class of `src/mane.py`.

Modelling conventions:
* Machine floats are modelled as exact rationals (`ℚ`); every numeric
  literal of the source is carried over verbatim (`0.05 = 1/20`, …).
* Python's `random` module is an explicit deterministic stream (`Rng`);
  `random.random()` and `random.uniform(a,b)` consume the float stream,
  `random.randint(a,b)` and `random.choice` consume the natural stream,
  reduced into the requested range exactly as the library guarantees.
* Geometry that the engine computes with square roots
  (`Vec3.length()`, `Vec3.normalized()`, `dot`) and the collision oracle
  (`raycast`) are environment-supplied functions: no property proved here
  depends on their metric laws, only on the values they return.
* Purely visual side effects of the source (models, colors, health bars,
  muzzle flashes, sounds, text, camera shake, `blink`, `animate_*`) have
  no bearing on the modelled state and are noted by comments at the
  point where the source performs them.
* Wall-clock reads (`time.time()`, `time.dt`) become explicit `now`/`dt`
  parameters; all reads within a single call of a method observe the
  same instant, matching the tick-level granularity of the game loop.
-/

/-- Three-dimensional vector with exact rational coordinates, standing in
for ursina's `Vec3`. -/
structure Vec3 where
  x : ℚ
  y : ℚ
  z : ℚ
deriving DecidableEq

/-- Componentwise vector addition. -/
def Vec3.add (a b : Vec3) : Vec3 := ⟨a.x + b.x, a.y + b.y, a.z + b.z⟩

/-- Componentwise vector subtraction. -/
def Vec3.sub (a b : Vec3) : Vec3 := ⟨a.x - b.x, a.y - b.y, a.z - b.z⟩

/-- Scalar multiplication of a vector, written on the right as in
`direction * speed * dt`. -/
def Vec3.smul (a : Vec3) (c : ℚ) : Vec3 := ⟨a.x * c, a.y * c, a.z * c⟩

instance : Add Vec3 := ⟨Vec3.add⟩

instance : Sub Vec3 := ⟨Vec3.sub⟩

/-- Result of one `raycast` call of the collision oracle, as the NPC code
inspects it: either nothing was hit, or the first entity hit is the
player, or the first entity hit is something else. -/
inductive RayRes
  | noHit
  | hitPlayer
  | hitOther
deriving DecidableEq

/-- Deterministic stand-in for Python's global `random` generator: a
stream of floats (consumed by `random.random()` / `random.uniform`) and a
stream of naturals (consumed by `random.randint` / `random.choice`).
An exhausted stream yields `0`. -/
structure Rng where
  floats : List ℚ
  nats : List ℕ
deriving DecidableEq

/-- Draw the next float of the stream. -/
def Rng.nextFloat (g : Rng) : ℚ × Rng :=
  (g.floats.headD 0, ⟨g.floats.tail, g.nats⟩)

/-- Draw the next natural of the stream. -/
def Rng.nextNat (g : Rng) : ℕ × Rng :=
  (g.nats.headD 0, ⟨g.floats, g.nats.tail⟩)

/-- Model of `random.random()`: one draw from the float stream; a run of
the Python program always receives a value in `[0, 1)`. -/
def randomRandom (g : Rng) : ℚ × Rng := g.nextFloat

/-- Model of `random.uniform(a, b)`: the draw `u` from the float stream
is mapped affinely onto `[a, b]`. -/
def randomUniform (a b : ℚ) (g : Rng) : ℚ × Rng :=
  let (u, g') := g.nextFloat
  (a + (b - a) * u, g')

/-- Model of `random.randint(a, b)` (inclusive bounds): the natural draw
is reduced into `[a, b]`. -/
def randomRandint (a b : ℕ) (g : Rng) : ℕ × Rng :=
  let (n, g') := g.nextNat
  (a + n % (b - a + 1), g')

/-- Model of `random.choice(xs)`: the natural draw selects an index of
`xs`. Python raises `IndexError` on an empty sequence; the model returns
`dflt` there (no caller reached in the claims passes an empty list). -/
def randomChoice {α : Type} (dflt : α) (xs : List α) (g : Rng) : α × Rng :=
  let (n, g') := g.nextNat
  (xs.getD (n % xs.length) dflt, g')

/-- The float stream only carries values a real run of `random.random()`
and `random.uniform` can produce: every entry lies in `[0, 1]`. -/
def Rng.Good (g : Rng) : Prop := ∀ q ∈ g.floats, 0 ≤ q ∧ q ≤ 1

namespace Npc

/-!
Model of the `EnemyNPC` class of `src/npc.py`. Only the methods that the
claims touch are embedded: `reset_state`, `get_observation_info` and
`shoot_at_player`.
-/

/-- Read-only view of the player entity as `EnemyNPC.shoot_at_player`
uses it: position, optional `height` attribute (the source tests
`hasattr(self.player, 'height')`), current speed (`velocity.length()`),
and whether the player object has a `take_damage` attribute. -/
structure EPlayer where
  position : Vec3
  height : Option ℚ
  velocity_len : ℚ
  has_take_damage : Bool
deriving DecidableEq

/-- External collaborators of `EnemyNPC`: the (nullable) player reference
and the geometry/collision oracles. -/
structure EEnv where
  player : Option EPlayer
  norm : Vec3 → ℚ
  normed : Vec3 → Vec3
  raycast : Vec3 → Vec3 → ℚ → RayRes

/-- State of an `EnemyNPC` (`src/npc.py`, `__init__`). Visual-only
attributes (color, hit flash, gun model, muzzle flash, sounds, debug
text) are omitted; `state` is the literal Python string. -/
structure ENpc where
  position : Vec3
  rotation_y : ℚ
  max_health : ℚ
  health : ℚ
  height : ℚ
  ammo : ℤ
  max_ammo : ℤ
  gun_damage : ℚ
  last_damage_time : ℚ
  last_shot_time : ℚ
  shoot_cooldown : ℚ
  move_speed : ℚ
  turn_speed : ℚ
  state : String
  action_history : List ℕ
deriving DecidableEq

/-- Model of ursina's `clamp(value, floor, ceiling)`. -/
def clampU (v lo hi : ℚ) : ℚ := min (max v lo) hi

/-- Model of `EnemyNPC.reset_state(position, health, ammo)`
(src/npc.py lines 337-378). `None` arguments leave the corresponding
fields alone; an explicit `health` also overwrites `max_health`, an
explicit `ammo` also overwrites `max_ammo`. The rotation reset draws
`random.uniform(0, 360)`. Color/flash/gun/collider resets are visual. -/
def reset_state (pos : Option Vec3) (health : Option ℚ) (ammo : Option ℤ)
    (s : ENpc) (g : Rng) : ENpc × Rng :=
  let s1 := match pos with
    | some p => { s with position := p }
    | none => s
  let s2 := match health with
    | some h => { s1 with health := h, max_health := h }
    | none => s1
  let s3 := match ammo with
    | some a => { s2 with ammo := a, max_ammo := a }
    | none => s2
  let (ry, g1) := randomUniform 0 360 g
  ({ s3 with
      rotation_y := ry,
      last_damage_time := 0,
      last_shot_time := 0,
      state := "idle",
      action_history := [] }, g1)

/-- Snapshot returned by `EnemyNPC.get_observation_info`
(src/npc.py lines 380-391). -/
structure ObsInfo where
  health : ℚ
  ammo : ℤ
  position : Vec3
  state : String
  last_damage_time : ℚ
  last_shot_time : ℚ
deriving DecidableEq

/-- Model of `EnemyNPC.get_observation_info` (src/npc.py lines 380-391). -/
def get_observation_info (s : ENpc) : ObsInfo :=
  ⟨s.health, s.ammo, s.position, s.state, s.last_damage_time, s.last_shot_time⟩

/-- Model of `EnemyNPC.shoot_at_player` (src/npc.py lines 223-277).
The third component of the result is the Python return value:
`none` for the early `return` statements (no player, cooldown, no ammo),
`some true` when the shot connects (the source then calls
`self.player.take_damage(damage)` on the external player), `some false`
for the final `return False`. Muzzle flash and sound are visual. -/
def shoot_at_player (env : EEnv) (now : ℚ) (s : ENpc) (g : Rng) :
    ENpc × Rng × Option Bool :=
  match env.player with
  | none => (s, g, none)
  | some p =>
    if now - s.last_shot_time < s.shoot_cooldown then (s, g, none)
    else if s.ammo ≤ 0 then (s, g, none)
    else
      let npc_eye := s.position + Vec3.mk 0 (s.height * (4/5)) 0
      let player_center := match p.height with
        | some h => p.position + Vec3.mk 0 (h * (1/2)) 0
        | none => p.position + Vec3.mk 0 (9/10) 0
      let hit := env.raycast npc_eye (env.normed (player_center - npc_eye)) 100
      let s1 := { s with last_shot_time := now, ammo := s.ammo - 1 }
      match hit with
      | RayRes.hitPlayer =>
        let distance_factor :=
          clampU (1 - env.norm (p.position - s.position) / 50) (1/5) (9/10)
        let hit_chance0 := distance_factor
        let hit_chance :=
          if p.velocity_len > 3 then hit_chance0 * (7/10) else hit_chance0
        let (r, g1) := randomRandom g
        if r ≤ hit_chance then
          let (dmul, g2) := randomUniform (4/5) (6/5) g1
          let _damage := s1.gun_damage * dmul
          if p.has_take_damage then (s1, g2, some true)
          else (s1, g2, some false)
        else (s1, g1, some false)
      | _ => (s1, g, some false)

end Npc

namespace Mane

/-!
Model of the `AdaptiveNPC` class of `src/mane.py` together with the
module-level globals its methods read (`player`, `walls`,
`enemy_spawn_positions`, `round_in_progress`, `GAME_MAP_SIZE`).
-/

/-- Module constant `GAME_MAP_SIZE = 30` (src/mane.py line 15). -/
def GAME_MAP_SIZE : ℚ := 30

/-- Read-only view of the global `player` as `AdaptiveNPC` methods use
it: position, alive flag, speed (`velocity.length()`) and the lateral
`right` vector used by the flanker tactic. -/
structure PlayerInfo where
  position : Vec3
  alive : Bool
  velocity_len : ℚ
  right : Vec3
deriving DecidableEq

/-- External collaborators of `AdaptiveNPC`: the (nullable) global
`player`, the geometry oracles, the collision oracle `raycast`, the
global `walls` and `enemy_spawn_positions` lists (walls reduced to their
positions, the only attribute the NPC reads), and the global
`round_in_progress` flag. -/
structure Env where
  player : Option PlayerInfo
  norm : Vec3 → ℚ
  normed : Vec3 → Vec3
  dot3 : Vec3 → Vec3 → ℚ
  raycast : Vec3 → Vec3 → ℚ → RayRes
  walls : List Vec3
  spawns : List Vec3
  roundInProgress : Bool

/-- One entry of the NPC's experience deque: the `'fire'` dictionaries
appended by `fire_at_player` and the `'died'` dictionaries appended by
`die` (src/mane.py lines 517-522 and 595-600). -/
inductive ExpRec
  | fire (hit : Bool) (distance : ℚ) (player_moving : Bool)
  | died (killer_position : Vec3) (distance : ℚ) (time_alive : ℚ)
deriving DecidableEq

/-- State of an `AdaptiveNPC` (src/mane.py, `__init__`, lines 203-249).
`state` and `tactical_preference` are the literal Python strings.
`hiding_start_time`, `player_spotted_time` and `last_respawn` are
attributes the source creates lazily and tests with `hasattr` /
`delattr`, hence `Option`. Visual-only attributes (model, color, health
bar, collider, visibility) are omitted; the facing angle set by
`look_at` is never read back by the modelled logic and is omitted too. -/
structure ANpc where
  health : ℚ
  max_health : ℚ
  speed : ℚ
  team_id : ℕ
  alive : Bool
  respawn_time : ℚ
  death_time : ℚ
  state : String
  waypoints : List Vec3
  current_waypoint : ℕ
  last_seen_player_pos : Option Vec3
  last_seen_player_time : ℚ
  memory_duration : ℚ
  aggressiveness : ℚ
  patience : ℚ
  reaction_time : ℚ
  accuracy : ℚ
  tactical_preference : String
  experience : List ExpRec
  position : Vec3
  last_position : Vec3
  stuck_timer : ℚ
  last_fire_time : ℚ
  fire_cooldown : ℚ
  hiding_start_time : Option ℚ
  player_spotted_time : Option ℚ
  last_respawn : Option ℚ
deriving DecidableEq

/-- One random in-bounds patrol coordinate:
`random.uniform(-GAME_MAP_SIZE/2 + 2, GAME_MAP_SIZE/2 - 2)`
(src/mane.py lines 450-451). -/
def uniformCoord (g : Rng) : ℚ × Rng :=
  randomUniform (-GAME_MAP_SIZE / 2 + 2) (GAME_MAP_SIZE / 2 - 2) g

/-- The waypoint-generating loop of `generate_patrol_path`
(src/mane.py lines 449-452): `n` points `Vec3(x, 1, z)` with fresh
uniform draws for `x` and `z`, in generation order. -/
def genWaypoints : ℕ → Rng → List Vec3 × Rng
  | 0, g => ([], g)
  | n + 1, g =>
    let (x, g1) := uniformCoord g
    let (z, g2) := uniformCoord g1
    let (rest, g3) := genWaypoints n g2
    (Vec3.mk x 1 z :: rest, g3)

/-- Model of `AdaptiveNPC.generate_patrol_path`
(src/mane.py lines 444-454): replace the waypoint list by
`random.randint(3, 6)` fresh in-bounds points and reset the cursor. -/
def generate_patrol_path (s : ANpc) (g : Rng) : ANpc × Rng :=
  let (n, g1) := randomRandint 3 6 g
  let (wps, g2) := genWaypoints n g1
  ({ s with waypoints := wps, current_waypoint := 0 }, g2)

/-- Model of `AdaptiveNPC.can_see_player` (src/mane.py lines 413-431):
fail closed without a live player; reject beyond 30 units; otherwise one
raycast from `position + Vec3(0, 0.5, 0)` along the normalized direction
bounded to `distance` (the `ignore=[self]` filter is part of the oracle
query). On a hit the result is `hit_info.entity == player`; on **no**
hit the source reaches the final `return False`. -/
def can_see_player (env : Env) (s : ANpc) : Bool :=
  match env.player with
  | none => false
  | some p =>
    if !p.alive then false
    else
      let direction := p.position - s.position
      let distance := env.norm direction
      if distance > 30 then false
      else
        match env.raycast (s.position + Vec3.mk 0 (1/2) 0) (env.normed direction) distance with
        | RayRes.hitPlayer => true
        | RayRes.hitOther => false
        | RayRes.noHit => false

/-- Model of `AdaptiveNPC.move_toward(target_pos, factor)`
(src/mane.py lines 433-442): step toward the target, then push away from
each wall closer than `1.5` (the loop reads the position it just
updated, hence a fold). `look_at` only changes facing. -/
def move_toward (env : Env) (dt : ℚ) (s : ANpc) (target_pos : Vec3)
    (factor : ℚ) : ANpc :=
  let direction := env.normed (target_pos - s.position)
  let pos1 := s.position + direction.smul (s.speed * factor * dt)
  let pos2 := env.walls.foldl
    (fun p w =>
      if env.norm (p - w) < 3/2 then
        p + (env.normed (p - w)).smul (s.speed * dt)
      else p) pos1
  { s with position := pos2 }

/-- Model of `AdaptiveNPC.find_hiding_spot` (src/mane.py lines 456-493),
given the player position (the source reads the global `player` without
a `None` check and would raise on a missing player). Scores every wall,
keeps the best spot, else retreats straight away from the player; either
way the waypoint list becomes a single point, the cursor resets and
`hiding_start_time` is stamped. -/
def find_hiding_spot (env : Env) (now : ℚ) (playerPos : Vec3) (s : ANpc) : ANpc :=
  let step := fun (best : Option Vec3 × ℚ) (w : Vec3) =>
    if env.norm (w - playerPos) < 5 then best
    else
      let player_to_wall := w - playerPos
      let wall_to_self := s.position - w
      let alignment := env.dot3 (env.normed player_to_wall) (env.normed wall_to_self)
      let distance_factor := 1 / (1 + env.norm (w - s.position) * (1/10))
      let score := alignment * distance_factor
      if score > best.2 then (some (w + (env.normed (w - playerPos)).smul 2), score)
      else best
  let best_spot := (env.walls.foldl step (none, 0)).1
  match best_spot with
  | some spot =>
    { s with waypoints := [spot], current_waypoint := 0, hiding_start_time := some now }
  | none =>
    let retreat_dir := env.normed (s.position - playerPos)
    let retreat_point := s.position + retreat_dir.smul 10
    { s with waypoints := [retreat_point], current_waypoint := 0,
             hiding_start_time := some now }

/-- The `find_hiding_spot` call sites pass no argument: the method reads
the global `player` itself. With `player = None` the source would raise
`AttributeError`; the model substitutes the origin (never reached by any
claim). -/
def find_hiding_spot_glob (env : Env) (now : ℚ) (s : ANpc) : ANpc :=
  match env.player with
  | some p => find_hiding_spot env now p.position s
  | none => find_hiding_spot env now (Vec3.mk 0 0 0) s

/-- Per-record accumulator of `adapt_behavior`'s analysis loop
(src/mane.py lines 534-547). -/
structure FireStats where
  hits : ℕ
  misses : ℕ
  distances : List ℚ
  player_movement : ℕ
deriving DecidableEq

/-- One iteration of `adapt_behavior`'s analysis loop
(src/mane.py lines 539-547). -/
def fireStatsStep (acc : FireStats) (e : ExpRec) : FireStats :=
  match e with
  | ExpRec.fire hit d moving =>
    { hits := acc.hits + (if hit then 1 else 0),
      misses := acc.misses + (if hit then 0 else 1),
      distances := acc.distances ++ [d],
      player_movement := acc.player_movement + (if moving then 1 else 0) }
  | ExpRec.died _ _ _ => acc

/-- The analysis loop of `adapt_behavior` (src/mane.py lines 539-547):
fold over the experience deque counting hits, misses, fire distances and
fire records with a moving player; `'died'` records contribute nothing. -/
def fireStats (exp : List ExpRec) : FireStats :=
  exp.foldl fireStatsStep ⟨0, 0, [], 0⟩

/-- The accuracy adjustment of `adapt_behavior`
(src/mane.py lines 555-561): raise by `0.05` capped at `0.9` below a
`0.3` hit rate, lower by `0.02` floored at `0.4` above `0.7`. -/
def adjustAccuracy (hit_rate : ℚ) (s : ANpc) : ANpc :=
  if hit_rate < 3/10 then { s with accuracy := min (9/10) (s.accuracy + 1/20) }
  else if hit_rate > 7/10 then { s with accuracy := max (2/5) (s.accuracy - 1/50) }
  else s

/-- The tactical-preference adjustment of `adapt_behavior`
(src/mane.py lines 563-571): with probability `0.6`, re-roll toward the
close-range pair below average distance 8 and toward the long-range
pair above 15. -/
def adjustTactical (avg_distance : ℚ) (s : ANpc) (g : Rng) : ANpc × Rng :=
  if avg_distance < 8 then
    let (u, ga) := randomRandom g
    if u < 3/5 then
      let (t, gb) := randomChoice "rusher" ["rusher", "flanker"] ga
      ({ s with tactical_preference := t }, gb)
    else (s, ga)
  else if avg_distance > 15 then
    let (u, ga) := randomRandom g
    if u < 3/5 then
      let (t, gb) := randomChoice "camper" ["camper", "sniper"] ga
      ({ s with tactical_preference := t }, gb)
    else (s, ga)
  else (s, g)

/-- The aggressiveness adjustment of `adapt_behavior`
(src/mane.py lines 573-579). -/
def adjustAggressiveness (player_moves_factor : ℚ) (s : ANpc) : ANpc :=
  if player_moves_factor > 7/10 then
    { s with aggressiveness := min (9/10) (s.aggressiveness + 1/20) }
  else if player_moves_factor < 3/10 then
    { s with aggressiveness := max (1/5) (s.aggressiveness - 3/100) }
  else s

/-- Model of `AdaptiveNPC.adapt_behavior` (src/mane.py lines 532-579):
aggregate the buffer; when at least one fire record is present, apply
the accuracy, tactical-preference and aggressiveness adjustments in the
source's order (the three commented blocks of the method). -/
def adapt_behavior (s : ANpc) (g : Rng) : ANpc × Rng :=
  let st := fireStats s.experience
  let total_shots := st.hits + st.misses
  if total_shots > 0 then
    let hit_rate : ℚ := (st.hits : ℚ) / (total_shots : ℚ)
    let avg_distance : ℚ :=
      if st.distances.length ≠ 0 then st.distances.sum / (st.distances.length : ℚ) else 0
    let player_moves_factor : ℚ := (st.player_movement : ℚ) / (s.experience.length : ℚ)
    let s1 := adjustAccuracy hit_rate s
    let (s2, g2) := adjustTactical avg_distance s1 g
    let s3 := adjustAggressiveness player_moves_factor s2
    (s3, g2)
  else (s, g)

/-- Model of `AdaptiveNPC.record_experience(data)`
(src/mane.py lines 524-530): append to the `deque(maxlen=100)` (evicting
the oldest entry at capacity), then — only once at least 5 records are
present, short-circuiting the random draw otherwise — trigger
`adapt_behavior` with probability `0.2`. -/
def record_experience (s : ANpc) (r : ExpRec) (g : Rng) : ANpc × Rng :=
  let exp' := (if s.experience.length ≥ 100 then s.experience.tail else s.experience) ++ [r]
  let s1 := { s with experience := exp' }
  if exp'.length ≥ 5 then
    let (u, g1) := randomRandom g
    if u < 1/5 then adapt_behavior s1 g1 else (s1, g1)
  else (s1, g)

/-- Result of `fire_at_player`: the updated NPC, the advanced random
stream, and whether the source invoked `player.take_damage(10)` on the
external player (the only mutation of the target this method performs). -/
structure FireResult where
  npc : ANpc
  rng : Rng
  damageApplied : Bool

/-- Model of `AdaptiveNPC.fire_at_player` (src/mane.py lines 495-522),
with `p` the global `player` (non-`None` at every call site). Stamps
`last_fire_time`; muzzle and bullet entities are visual. The hit chance
is `accuracy * 1/(1 + distance * 0.05)`. Damage is decided by one draw
(`random.random() < final_hit_chance and player.alive`, line 513); the
recorded `'hit'` flag is a **second, independent** draw made while
building the experience dictionary (line 519). -/
def fire_at_player (env : Env) (now : ℚ) (p : PlayerInfo) (s : ANpc)
    (g : Rng) : FireResult :=
  let s1 := { s with last_fire_time := now }
  let hit_chance := s1.accuracy
  let distance_factor := 1 / (1 + env.norm (p.position - s1.position) * (1/20))
  let final_hit_chance := hit_chance * distance_factor
  let (r1, g1) := randomRandom g
  let damage := decide (r1 < final_hit_chance) && p.alive
  let (r2, g2) := randomRandom g1
  let rec2 := ExpRec.fire (decide (r2 < final_hit_chance))
    (env.norm (p.position - s1.position)) (decide (p.velocity_len > 1/10))
  let (s2, g3) := record_experience s1 rec2 g2
  { npc := s2, rng := g3, damageApplied := damage }

/-- Model of `AdaptiveNPC.adapt_after_death` (src/mane.py lines 605-615):
jitter `aggressiveness`, `patience` and `reaction_time` inside their
clamps, then with probability `0.3` re-roll `tactical_preference`. -/
def adapt_after_death (s : ANpc) (g : Rng) : ANpc × Rng :=
  let (u1, g1) := randomUniform (-(1/5)) (1/5) g
  let s1 := { s with aggressiveness := max (1/10) (min (9/10) (s.aggressiveness + u1)) }
  let (u2, g2) := randomUniform (-2) 2 g1
  let s2 := { s1 with patience := max 3 (min 20 (s1.patience + u2)) }
  let (u3, g3) := randomUniform (4/5) (6/5) g2
  let s3 := { s2 with reaction_time := max (3/10) (min 2 (s2.reaction_time * u3)) }
  let (u4, g4) := randomRandom g3
  if u4 < 3/10 then
    let (t, g5) := randomChoice "flanker" ["flanker", "rusher", "camper", "sniper"] g4
    ({ s3 with tactical_preference := t }, g5)
  else (s3, g4)

/-- Model of `AdaptiveNPC.die` (src/mane.py lines 581-603): idempotence
guard, then mark not-alive and stamp `death_time` (visibility, collider
and the death effect are visual; note the method never writes `health`),
record a `'died'` experience — whose `time_alive` reads
`self.respawn_time` when a `last_respawn` attribute exists, exactly as
the source does — and run `adapt_after_death`. -/
def die (env : Env) (now : ℚ) (s : ANpc) (g : Rng) : ANpc × Rng :=
  if s.alive then
    let s1 := { s with alive := false, death_time := now }
    let rec2 := match env.player with
      | some p =>
        ExpRec.died p.position (env.norm (p.position - s1.position))
          (now - (if s1.last_respawn.isSome then s1.respawn_time else 0))
      | none =>
        ExpRec.died (Vec3.mk 0 0 0) 0
          (now - (if s1.last_respawn.isSome then s1.respawn_time else 0))
    let (s2, g1) := record_experience s1 rec2 g
    adapt_after_death s2 g1
  else (s, g)

/-- Model of `AdaptiveNPC.respawn` (src/mane.py lines 617-636): revive
at full health (visibility/collider are visual), pick a spawn point
farther than 10 from the player — falling back to the whole spawn list —
re-enter `'patrol'` with a fresh patrol path, and stamp `last_respawn`.
The adapted tunables are not touched. -/
def respawn (env : Env) (now : ℚ) (s : ANpc) (g : Rng) : ANpc × Rng :=
  let s1 := { s with alive := true, health := s.max_health }
  let possible :=
    match env.player with
    | some p => env.spawns.filter (fun q => env.norm (q - p.position) > 10)
    | none => env.spawns
  let possible2 := if possible = [] then env.spawns else possible
  let (sp, g1) := randomChoice (Vec3.mk 0 0 0) possible2 g
  let s2 := { s1 with position := sp, state := "patrol" }
  let (s3, g2) := generate_patrol_path s2 g1
  ({ s3 with last_respawn := some now }, g2)

/-- The waypoint-generating loop of `find_retreat_path`
(src/mane.py lines 672-686): three steps away from the player with
random lateral jitter, each coordinate clamped to the map bounds, each
step continuing from the previous point. -/
def genRetreat (retreat_dir : Vec3) : ℕ → Vec3 → Rng → List Vec3 × Rng
  | 0, _, g => ([], g)
  | n + 1, cur, g =>
    let (ox, g1) := randomUniform (-3) 3 g
    let (oz, g2) := randomUniform (-3) 3 g1
    let np0 := cur + retreat_dir.smul 5 + Vec3.mk ox 0 oz
    let np := Vec3.mk
      (max (min np0.x (GAME_MAP_SIZE / 2 - 2)) (-GAME_MAP_SIZE / 2 + 2))
      np0.y
      (max (min np0.z (GAME_MAP_SIZE / 2 - 2)) (-GAME_MAP_SIZE / 2 + 2))
    let (rest, g3) := genRetreat retreat_dir n np g2
    (np :: rest, g3)

/-- Model of `AdaptiveNPC.find_retreat_path` (src/mane.py lines 661-688):
no-op without a player; otherwise replace the waypoints by three jittered
points in the retreat direction and reset the cursor. -/
def find_retreat_path (env : Env) (s : ANpc) (g : Rng) : ANpc × Rng :=
  match env.player with
  | none => (s, g)
  | some p =>
    let retreat_dir := env.normed (s.position - p.position)
    let (wps, g1) := genRetreat retreat_dir 3 s.position g
    ({ s with waypoints := wps, current_waypoint := 0 }, g1)

/-- Model of `AdaptiveNPC.take_damage(amount)`
(src/mane.py lines 638-659): ignore when dead; subtract the damage
(`blink` is visual); below 30 health switch to `'retreat'` with a
retreat path, otherwise with probability `0.3` re-roll the state among
`'engage'`/`'retreat'`/`'hide'` with the matching path setup; finally
`die` whenever health is now `≤ 0`. The method never clamps `health`
at 0, and `die` does not write `health` either. -/
def take_damage (env : Env) (now : ℚ) (amount : ℚ) (s : ANpc) (g : Rng) :
    ANpc × Rng :=
  if s.alive then
    let s1 := { s with health := s.health - amount }
    let (s2, g2) :=
      if s1.health < (30 : ℚ) then
        find_retreat_path env { s1 with state := "retreat" } g
      else
        let (u, ga) := randomRandom g
        if u < 3/10 then
          let (c, gb) := randomChoice "engage" ["engage", "retreat", "hide"] ga
          let sc := { s1 with state := c }
          if c = "retreat" then find_retreat_path env sc gb
          else if c = "hide" then (find_hiding_spot_glob env now sc, gb)
          else (sc, gb)
        else (s1, ga)
    if s2.health ≤ 0 then die env now s2 g2 else (s2, g2)
  else (s, g)

/-- Model of `AdaptiveNPC.patrol_behavior` (src/mane.py lines 293-306):
regenerate the path when the waypoint list is empty and return;
otherwise step toward the current waypoint and, once within distance 1,
advance the cursor cyclically. Python would raise `IndexError` on an
out-of-range cursor; the model reads a default there. -/
def patrol_behavior (env : Env) (dt : ℚ) (s : ANpc) (g : Rng) : ANpc × Rng :=
  if s.waypoints = [] then generate_patrol_path s g
  else
    let wp := s.waypoints.getD s.current_waypoint (Vec3.mk 0 0 0)
    let direction := env.normed (wp - s.position)
    let s1 := { s with position := s.position + direction.smul (s.speed * dt) }
    if env.norm (s1.position - wp) < 1 then
      ({ s1 with current_waypoint := (s1.current_waypoint + 1) % s1.waypoints.length }, g)
    else (s1, g)

/-- Model of `AdaptiveNPC.combat_behavior` (src/mane.py lines 308-359).
Sight lost (no player, dead player, or `can_see_player` false): stamp
`last_seen_player_time = time.time()` — the source does this on **loss**
of sight, every tick — then hide with probability `1 - aggressiveness`
or chase the remembered position. Sight held: refresh the memory, run
the tactic-specific movement, and fire once the cooldown has elapsed. -/
def combat_behavior (env : Env) (now dt : ℚ) (s : ANpc) (g : Rng) : ANpc × Rng :=
  let lost := fun (g0 : Rng) =>
    let s1 := { s with last_seen_player_time := now }
    let (u, g1) := randomRandom g0
    if u > s1.aggressiveness then
      (find_hiding_spot_glob env now { s1 with state := "hide" }, g1)
    else
      match s1.last_seen_player_pos with
      | some pos => (move_toward env dt s1 pos 1, g1)
      | none => (s1, g1)
  match env.player with
  | none => lost g
  | some p =>
    if !p.alive || !(can_see_player env s) then lost g
    else
      let s1 := { s with last_seen_player_pos := some p.position,
                         last_seen_player_time := now }
      let (s2, g2) :=
        if s1.tactical_preference = "flanker" then
          let (u, ga) := randomUniform (-2) 2 g
          let target_pos := p.position + p.right.smul (5 + u)
          (move_toward env dt s1 target_pos 1, ga)
        else if s1.tactical_preference = "rusher" then
          (move_toward env dt s1 p.position 1, g)
        else if s1.tactical_preference = "camper" then
          let distance := env.norm (p.position - s1.position)
          if distance > 15 then (move_toward env dt s1 p.position (1/2), g)
          else (s1, g)
        else if s1.tactical_preference = "sniper" then
          let distance := env.norm (p.position - s1.position)
          if distance < 10 then
            let direction := env.normed (s1.position - p.position)
            ({ s1 with position := s1.position + direction.smul (s1.speed * dt) }, g)
          else if distance > 20 then (move_toward env dt s1 p.position (3/10), g)
          else (s1, g)
        else (s1, g)
      if now - s2.last_fire_time ≥ s2.fire_cooldown then
        let r := fire_at_player env now p s2 g2
        (r.npc, r.rng)
      else (s2, g2)

/-- Model of `AdaptiveNPC.retreat_behavior` (src/mane.py lines 361-377):
with no waypoints left (or an exhausted cursor) switch to `'hide'`;
otherwise walk the retreat path, advancing the cursor on arrival, and on
completing the path switch to `'hide'` with a `+20` health recovery
capped at `max_health`. -/
def retreat_behavior (env : Env) (now dt : ℚ) (s : ANpc) (g : Rng) : ANpc × Rng :=
  if s.waypoints = [] ∨ s.current_waypoint ≥ s.waypoints.length then
    (find_hiding_spot_glob env now { s with state := "hide" }, g)
  else
    let wp := s.waypoints.getD s.current_waypoint (Vec3.mk 0 0 0)
    let s1 := move_toward env dt s wp 1
    if env.norm (s1.position - wp) < 1 then
      let s2 := { s1 with current_waypoint := s1.current_waypoint + 1 }
      if s2.current_waypoint ≥ s2.waypoints.length then
        ({ s2 with state := "hide",
                   health := min (s2.health + 20) s2.max_health }, g)
      else (s2, g)
    else (s1, g)

/-- Model of `AdaptiveNPC.hide_behavior` (src/mane.py lines 379-396):
lazily stamp `hiding_start_time`; after `patience` seconds go back to
`'patrol'` with a fresh path; otherwise, if the player is visible,
re-engage with probability `aggressiveness * health / max_health`. -/
def hide_behavior (env : Env) (now : ℚ) (s : ANpc) (g : Rng) : ANpc × Rng :=
  let startAndState : ℚ × ANpc :=
    match s.hiding_start_time with
    | none => (now, { s with hiding_start_time := some now })
    | some t => (t, s)
  let start := startAndState.1
  let s0 := startAndState.2
  if now - start > s0.patience then
    generate_patrol_path { s0 with state := "patrol" } g
  else if can_see_player env s0 then
    let health_factor := s0.health / s0.max_health
    let engage_probability := s0.aggressiveness * health_factor
    let (u, g1) := randomRandom g
    if u < engage_probability then ({ s0 with state := "engage" }, g1)
    else (s0, g1)
  else (s0, g)

/-- Model of `AdaptiveNPC.look_for_player` (src/mane.py lines 398-411):
while the player is visible, lazily stamp `player_spotted_time` and,
once `reaction_time` has elapsed since the stamp, engage and set the
memory; while invisible, delete the stamp. -/
def look_for_player (env : Env) (now : ℚ) (s : ANpc) : ANpc :=
  if can_see_player env s then
    let spottedAndState : ℚ × ANpc :=
      match s.player_spotted_time with
      | none => (now, { s with player_spotted_time := some now })
      | some t => (t, s)
    let spotted := spottedAndState.1
    let s0 := spottedAndState.2
    if now - spotted ≥ s0.reaction_time then
      match env.player with
      | some p =>
        { s0 with state := "engage", last_seen_player_pos := some p.position,
                  last_seen_player_time := now }
      | none => s0
    else s0
  else { s with player_spotted_time := none }

/-- Model of `AdaptiveNPC.unstuck` (src/mane.py lines 690-699): jump in
a random normalized direction at double speed and clear the stuck
timer. -/
def unstuck (env : Env) (dt : ℚ) (s : ANpc) (g : Rng) : ANpc × Rng :=
  let (ux, g1) := randomUniform (-1) 1 g
  let (uz, g2) := randomUniform (-1) 1 g1
  let random_dir := env.normed (Vec3.mk ux 0 uz)
  ({ s with position := s.position + random_dir.smul (s.speed * 2 * dt),
            stuck_timer := 0 }, g2)

/-- The stuck check of `update` (src/mane.py lines 263-270): while the
NPC has barely moved, accumulate `stuck_timer` and `unstuck` past one
second; otherwise clear the timer and remember the position. -/
def stuckCheck (env : Env) (dt : ℚ) (s : ANpc) (g : Rng) : ANpc × Rng :=
  if env.norm (s.position - s.last_position) < 1/20 then
    let sa := { s with stuck_timer := s.stuck_timer + dt }
    if sa.stuck_timer > 1 then unstuck env dt sa g else (sa, g)
  else ({ s with stuck_timer := 0, last_position := s.position }, g)

/-- The trailing memory check of `update` (src/mane.py lines 286-291):
when a remembered position is older than `memory_duration`, forget it,
and if still `'engage'` fall back to `'patrol'` with a fresh path. -/
def expireMemory (now : ℚ) (s : ANpc) (g : Rng) : ANpc × Rng :=
  if s.last_seen_player_pos.isSome ∧ now - s.last_seen_player_time > s.memory_duration then
    let s3 := { s with last_seen_player_pos := none }
    if s3.state = "engage" then
      generate_patrol_path { s3 with state := "patrol" } g
    else (s3, g)
  else (s, g)

/-- Model of `AdaptiveNPC.update` (src/mane.py lines 251-291). Dead:
respawn once the delay has passed and a round is running. Alive: health
bar update is visual; run the stuck check, dispatch on the state string
exactly as the `if`/`elif` chain does (`'patrol'` also scans for the
player), then run the trailing memory check. The source's truthiness
test `if self.last_seen_player_pos` is modelled as presence of the
optional value. -/
def update (env : Env) (now dt : ℚ) (s : ANpc) (g : Rng) : ANpc × Rng :=
  if !s.alive then
    if now - s.death_time ≥ s.respawn_time ∧ env.roundInProgress then
      respawn env now s g
    else (s, g)
  else
    let (s1, g1) := stuckCheck env dt s g
    let (s2, g2) :=
      if s1.state = "patrol" then
        let (sp, gp) := patrol_behavior env dt s1 g1
        (look_for_player env now sp, gp)
      else if s1.state = "engage" then combat_behavior env now dt s1 g1
      else if s1.state = "retreat" then retreat_behavior env now dt s1 g1
      else if s1.state = "hide" then hide_behavior env now s1 g1
      else (s1, g1)
    expireMemory now s2 g2

/-- A record is a fire record (src/mane.py line 540 tests
`exp['action'] == 'fire'`). -/
def isFire : ExpRec → Bool
  | ExpRec.fire _ _ _ => true
  | ExpRec.died _ _ _ => false

/-- A record is a **hit** fire record (the `exp['hit']` test on
src/mane.py line 541). -/
def isHitFire : ExpRec → Bool
  | ExpRec.fire true _ _ => true
  | _ => false

/-- A patrol waypoint is in bounds: both ground coordinates lie in
`[-GAME_MAP_SIZE/2 + 2, GAME_MAP_SIZE/2 - 2] = [-13, 13]` and the
height is the fixed `1` (src/mane.py lines 450-452). -/
def inBounds (w : Vec3) : Prop :=
  -13 ≤ w.x ∧ w.x ≤ 13 ∧ w.y = 1 ∧ -13 ≤ w.z ∧ w.z ≤ 13

/-- The player view used by the concrete scenarios: alive, standing
still at `(0, 1, 0)`. -/
def pInfo0 : PlayerInfo :=
  { position := Vec3.mk 0 1 0, alive := true, velocity_len := 0,
    right := Vec3.mk 1 0 0 }

/-- Baseline `AdaptiveNPC` state for the concrete scenarios, with the
`__init__` values of src/mane.py lines 203-249 (randomized tunables
fixed at representative in-range values). -/
def npcA0 : ANpc :=
  { health := 100, max_health := 100, speed := 5, team_id := 1,
    alive := true, respawn_time := 5, death_time := 0, state := "patrol",
    waypoints := [], current_waypoint := 0, last_seen_player_pos := none,
    last_seen_player_time := 0, memory_duration := 5,
    aggressiveness := 1/2, patience := 10, reaction_time := 1,
    accuracy := 7/10, tactical_preference := "rusher", experience := [],
    position := Vec3.mk 3 1 3, last_position := Vec3.mk 0 1 0,
    stuck_timer := 0, last_fire_time := 0, fire_cooldown := 1,
    hiding_start_time := none, player_spotted_time := none,
    last_respawn := none }

/-- Environment for the C2 scenario: live player well inside vision
range whose obstruction query reports **no** hit at all. -/
def envC2 : Env :=
  { player := some pInfo0, norm := fun _ => 10,
    normed := fun _ => Vec3.mk 0 0 1, dot3 := fun _ _ => 0,
    raycast := fun _ _ _ => RayRes.noHit, walls := [], spawns := [],
    roundInProgress := true }

/-- Environment for the C3 scenario: live player whose obstruction
query always reports a wall first, so perception stays lost. -/
def envC3 : Env :=
  { player := some pInfo0, norm := fun _ => 10,
    normed := fun _ => Vec3.mk 0 0 1, dot3 := fun _ _ => 0,
    raycast := fun _ _ _ => RayRes.hitOther, walls := [],
    spawns := [Vec3.mk 2 1 2], roundInProgress := true }

/-- Environment for the C1 scenario: no player reference at all (its
value is irrelevant to the health/alive outcome of `take_damage`). -/
def envC1 : Env :=
  { player := none, norm := fun _ => 10, normed := fun _ => Vec3.mk 0 0 1,
    dot3 := fun _ _ => 0, raycast := fun _ _ _ => RayRes.hitOther,
    walls := [], spawns := [], roundInProgress := true }

/-- Environment for the C4 scenario: live stationary player at measured
distance `0`, so the hit chance is exactly the NPC's `accuracy`. -/
def envC4 : Env :=
  { player := some pInfo0, norm := fun _ => 0,
    normed := fun _ => Vec3.mk 0 0 1, dot3 := fun _ _ => 0,
    raycast := fun _ _ _ => RayRes.hitPlayer, walls := [], spawns := [],
    roundInProgress := true }

/-- Environment for the C8 scenario: live player far (20 units) from
the single registered spawn point. -/
def envC8 : Env :=
  { player := some pInfo0, norm := fun _ => 20,
    normed := fun _ => Vec3.mk 0 0 1, dot3 := fun _ _ => 0,
    raycast := fun _ _ _ => RayRes.hitOther, walls := [],
    spawns := [Vec3.mk 2 1 2], roundInProgress := true }

/-- Environment for the C2 amended-claim witness: the obstruction query
reports the player as the first entity hit. -/
def envW2 : Env :=
  { player := some pInfo0, norm := fun _ => 10,
    normed := fun _ => Vec3.mk 0 0 1, dot3 := fun _ _ => 0,
    raycast := fun _ _ _ => RayRes.hitPlayer, walls := [], spawns := [],
    roundInProgress := true }

/-- NPC state for the C3 scenario: engaged, remembering a position seen
at time 0 — 95 seconds stale by the time of the `update` at `now = 100`,
far beyond `memory_duration = 5`. -/
def npcC3 : ANpc :=
  { npcA0 with
      state := "engage",
      last_seen_player_pos := some (Vec3.mk 5 1 5),
      last_seen_player_time := 0 }

/-- NPC state for the C4 scenario: accuracy one half, empty experience
buffer. -/
def npcC4 : ANpc := { npcA0 with accuracy := 1/2 }

/-- NPC state for the C6 witness: accuracy `0.7` and an experience
buffer of five all-miss fire records. -/
def npcC6 : ANpc :=
  { npcA0 with
      experience := List.replicate 5 (ExpRec.fire false 10 false) }

end Mane

/-- Empty random streams (every further draw yields the default `0`). -/
def rng0 : Rng := ⟨[], []⟩

/-- Random stream for the C3 scenario: the single engage-state draw
`0.25` stays at or below the NPC's aggressiveness `0.5`, so the NPC
keeps chasing the remembered position rather than hiding. -/
def rngC3 : Rng := ⟨[1/4], []⟩

/-- Random stream for the C4 scenario: the damage draw `0.1` succeeds
against the hit chance `0.5`, the independent record draw `0.9` fails. -/
def rngC4 : Rng := ⟨[1/10, 9/10], []⟩

/-- Random stream for the C8 scenario: the death-time jitter draw `1`
pushes aggressiveness up by the full `+0.2`, the later draws keep
patience/reaction in range and skip the tactic re-roll. -/
def rngC8 : Rng := ⟨[1, 0, 0, 1/2], []⟩

/-- Random stream for the C9 witness: one patrol-size draw and a few
in-range coordinate draws. -/
def rngC9 : Rng := ⟨[1/2, 1/3, 1, 0, 1/4, 3/4], [2]⟩

/-- Baseline `EnemyNPC` state for the concrete scenarios:
the `__init__` values of src/npc.py lines 20-103. -/
def npcE0 : Npc.ENpc :=
  { position := Vec3.mk 0 1 5, rotation_y := 0, max_health := 100,
    health := 100, height := 2, ammo := 30, max_ammo := 30,
    gun_damage := 10, last_damage_time := 0, last_shot_time := 0,
    shoot_cooldown := 1/2, move_speed := 5, turn_speed := 120,
    state := "idle", action_history := [] }

/-- Environment for the `EnemyNPC` scenarios: a player with a `height`
attribute and a `take_damage` method, whose obstruction query reports
the player. -/
def eenv0 : Npc.EEnv :=
  { player := some ⟨Vec3.mk 0 1 0, some 2, 0, true⟩,
    norm := fun _ => 10, normed := fun _ => Vec3.mk 0 0 1,
    raycast := fun _ _ _ => RayRes.hitPlayer }

/-!
Claim theorems. Each theorem is stated against the embedded definitions
above; closed scenario theorems evaluate the model at explicit inputs.
-/

/-- C5 (counterexample): resetting a concrete NPC with explicit
position `(1,1,2)`, health `80` and ammo `12` and immediately reading
`get_observation_info` yields `state == "idle"`, not the `Patrol` state
the claim asserts — `EnemyNPC.reset_state` sets `self.state = 'idle'`
(src/npc.py line 365). -/
theorem reset_state_lands_in_idle_not_patrol :
    (Npc.get_observation_info
      (Npc.reset_state (some (Vec3.mk 1 1 2)) (some 80) (some 12) npcE0 rng0).1).state
      = "idle" ∧
    ¬ (Npc.get_observation_info
      (Npc.reset_state (some (Vec3.mk 1 1 2)) (some 80) (some 12) npcE0 rng0).1).state
      = "patrol" := by
  decide

/-- C5 (amended): for every NPC and every `P`, `H`, `A`, calling
`reset_state(npc, position=P, health=H, ammo=A)` and then immediately
reading `get_observation_info` returns `position == P`, `health == H`,
`ammo == A`, and `state == "idle"` (the `EnemyNPC` initial/idle state,
not `Patrol`). -/
theorem reset_state_roundtrip (s : Npc.ENpc) (g : Rng) (P : Vec3) (H : ℚ) (A : ℤ) :
    (Npc.get_observation_info (Npc.reset_state (some P) (some H) (some A) s g).1).position = P ∧
    (Npc.get_observation_info (Npc.reset_state (some P) (some H) (some A) s g).1).health = H ∧
    (Npc.get_observation_info (Npc.reset_state (some P) (some H) (some A) s g).1).ammo = A ∧
    (Npc.get_observation_info (Npc.reset_state (some P) (some H) (some A) s g).1).state = "idle" := by
  simp [Npc.reset_state, Npc.get_observation_info, randomUniform, Rng.nextFloat]

/-- C7: `shoot_at_player` never decrements ammo below 0 (starting from
any nonnegative ammo count), and called with `ammo == 0` it leaves the
NPC completely unchanged — no ammo decrement, no cooldown reset — and
returns the falsy early-return value `none`. -/
theorem shoot_at_player_ammo_guard (env : Npc.EEnv) (now : ℚ) (s : Npc.ENpc) (g : Rng) :
    (0 ≤ s.ammo → 0 ≤ ((Npc.shoot_at_player env now s g).1).ammo) ∧
    (s.ammo = 0 → (Npc.shoot_at_player env now s g).1 = s ∧
      (Npc.shoot_at_player env now s g).2.2 = none) := by
  unfold Npc.shoot_at_player
  rcases env.player with _ | p
  · simp
  · split_ifs with hcd ha
    · simp
    · simp
    · constructor
      · intro h0
        dsimp only []
        split
        · split_ifs <;> simp <;> omega
        · simp
          omega
      · intro h0
        omega

/-- C7 witness: the guard applied at a concrete NPC with 30 rounds and
at the same NPC with an empty magazine. -/
theorem shoot_at_player_ammo_guard_witness :
    ((0:ℤ) ≤ npcE0.ammo ∧ 0 ≤ ((Npc.shoot_at_player eenv0 10 npcE0 rng0).1).ammo) ∧
    (({ npcE0 with ammo := 0 } : Npc.ENpc).ammo = 0 ∧
      (Npc.shoot_at_player eenv0 10 { npcE0 with ammo := 0 } rng0).2.2 = none) :=
  ⟨⟨by decide, (shoot_at_player_ammo_guard eenv0 10 npcE0 rng0).1 (by decide)⟩,
   ⟨by decide,
    ((shoot_at_player_ammo_guard eenv0 10 { npcE0 with ammo := 0 } rng0).2 (by decide)).2⟩⟩

/-- C10: calling `reset_state` with an explicit health `H` overwrites
`max_health` to `H`, and with an explicit ammo `A` overwrites `max_ammo`
to `A`; in particular resetting health below the current maximum lowers
the NPC's maximum health (src/npc.py lines 349-355). -/
theorem reset_state_overwrites_caps (s : Npc.ENpc) (g : Rng) (pos : Option Vec3)
    (H : ℚ) (A : ℤ) :
    ((Npc.reset_state pos (some H) (some A) s g).1).max_health = H ∧
    ((Npc.reset_state pos (some H) (some A) s g).1).max_ammo = A ∧
    (H < s.max_health →
      ((Npc.reset_state pos (some H) (some A) s g).1).max_health < s.max_health) ∧
    (A < s.max_ammo →
      ((Npc.reset_state pos (some H) (some A) s g).1).max_ammo < s.max_ammo) := by
  rcases pos with _ | P <;>
    simp [Npc.reset_state, randomUniform, Rng.nextFloat]

/-- C10 witness: resetting the concrete NPC (caps 100 health / 30 ammo)
to health 50 and ammo 12 lowers both caps. -/
theorem reset_state_overwrites_caps_witness :
    ((50:ℚ) < npcE0.max_health ∧ (12:ℤ) < npcE0.max_ammo) ∧
    ((Npc.reset_state none (some 50) (some 12) npcE0 rng0).1).max_health < npcE0.max_health ∧
    ((Npc.reset_state none (some 50) (some 12) npcE0 rng0).1).max_ammo < npcE0.max_ammo :=
  ⟨⟨by decide, by decide⟩,
   (reset_state_overwrites_caps npcE0 rng0 none 50 12).2.2.1 (by decide),
   (reset_state_overwrites_caps npcE0 rng0 none 50 12).2.2.2 (by decide)⟩

/-- C2 (counterexample): a live player at measured distance 10 (inside
the 30-unit vision range) whose obstruction query reports **no** hit at
all is *not* visible: `can_see_player` falls through to its final
`return False` (src/mane.py line 431), while the claim says a query
hitting no obstruction counts the target as visible. -/
theorem can_see_player_no_hit_returns_false :
    Mane.envC2.player = some Mane.pInfo0 ∧
    Mane.pInfo0.alive = true ∧
    Mane.envC2.norm (Mane.pInfo0.position - Mane.npcA0.position) ≤ 30 ∧
    Mane.envC2.raycast (Mane.npcA0.position + Vec3.mk 0 (1/2) 0)
      (Mane.envC2.normed (Mane.pInfo0.position - Mane.npcA0.position))
      (Mane.envC2.norm (Mane.pInfo0.position - Mane.npcA0.position)) = RayRes.noHit ∧
    Mane.can_see_player Mane.envC2 Mane.npcA0 = false := by
  decide

/-- C2 (amended): for a live player within vision range, the perception
check returns `true` **iff** the single obstruction query from the eye
point toward the target, bounded to the measured distance, reports the
target itself as the first obstruction; both a different first
obstruction *and no obstruction at all* make it return `false`. -/
theorem can_see_player_hit_iff (env : Mane.Env) (s : Mane.ANpc) (p : Mane.PlayerInfo)
    (hp : env.player = some p) (ha : p.alive = true)
    (hd : env.norm (p.position - s.position) ≤ 30) :
    (Mane.can_see_player env s = true ↔
      env.raycast (s.position + Vec3.mk 0 (1/2) 0)
        (env.normed (p.position - s.position))
        (env.norm (p.position - s.position)) = RayRes.hitPlayer) := by
  unfold Mane.can_see_player
  rw [hp]
  dsimp only []
  rw [ha]
  simp only [Bool.not_true, Bool.false_eq_true, if_false, if_neg (not_lt.mpr hd)]
  cases env.raycast (s.position + Vec3.mk 0 (1/2) 0)
    (env.normed (p.position - s.position))
    (env.norm (p.position - s.position)) <;> simp

/-- C2 witness: the amended equivalence instantiated at a concrete NPC
and an oracle whose query does report the player, giving a `true`
perception check. -/
theorem can_see_player_hit_iff_witness :
    (Mane.envW2.player = some Mane.pInfo0 ∧ Mane.pInfo0.alive = true ∧
      Mane.envW2.norm (Mane.pInfo0.position - Mane.npcA0.position) ≤ 30) ∧
    (Mane.can_see_player Mane.envW2 Mane.npcA0 = true ↔
      Mane.envW2.raycast (Mane.npcA0.position + Vec3.mk 0 (1/2) 0)
        (Mane.envW2.normed (Mane.pInfo0.position - Mane.npcA0.position))
        (Mane.envW2.norm (Mane.pInfo0.position - Mane.npcA0.position)) = RayRes.hitPlayer) :=
  ⟨⟨rfl, rfl, by norm_num [Mane.envW2]⟩,
   can_see_player_hit_iff Mane.envW2 Mane.npcA0 Mane.pInfo0 rfl rfl
     (by norm_num [Mane.envW2])⟩

/-- C3: an NPC in `'engage'` whose remembered position is 95 seconds
stale (`memory_duration = 5`) and whose perception query keeps failing
does **not** transition to `'patrol'` and keeps `last_seen_player_pos`
after the next `update`: `combat_behavior` overwrites
`last_seen_player_time` with the current time on every tick in which
sight is lost (src/mane.py line 311), so the expiry test on line 287
compares the clock against itself and never fires while engaged. -/
theorem engage_memory_never_expires :
    (100:ℚ) - Mane.npcC3.last_seen_player_time > Mane.npcC3.memory_duration ∧
    Mane.can_see_player Mane.envC3 Mane.npcC3 = false ∧
    ((Mane.update Mane.envC3 100 (1/60) Mane.npcC3 rngC3).1).state = "engage" ∧
    ((Mane.update Mane.envC3 100 (1/60) Mane.npcC3 rngC3).1).last_seen_player_pos =
      some (Vec3.mk 5 1 5) := by
  norm_num [Mane.update, Mane.stuckCheck, Mane.expireMemory,
    Mane.combat_behavior, Mane.can_see_player,
    Mane.move_toward, Mane.find_hiding_spot_glob, Mane.find_hiding_spot,
    Mane.generate_patrol_path, Mane.genWaypoints, Mane.unstuck,
    Mane.patrol_behavior, Mane.retreat_behavior, Mane.hide_behavior,
    Mane.look_for_player, Mane.fire_at_player, Mane.record_experience,
    Mane.adapt_behavior, Mane.adjustAccuracy, Mane.adjustTactical,
    Mane.adjustAggressiveness, Mane.fireStats, Mane.respawn, randomRandom,
    randomUniform, randomRandint, randomChoice, Rng.nextFloat, Rng.nextNat,
    Mane.npcC3, Mane.npcA0, Mane.envC3, rngC3, Mane.pInfo0,
    Mane.uniformCoord, Mane.GAME_MAP_SIZE,
    show ("engage" : String) ≠ "patrol" by decide,
    show ("engage" : String) ≠ "retreat" by decide,
    show ("engage" : String) ≠ "hide" by decide]

/-- C4: in a concrete fire attempt with hit chance `1/2`, the damage
draw (`0.1`, a hit — 10 damage reaches the player) and the recorded
`'hit'` flag (an independent second draw, `0.9`, a miss) disagree: the
appended `ExperienceRecord` carries `hit = false` although damage was
applied (src/mane.py lines 513 and 519 call `random.random()` twice). -/
theorem fire_record_hit_flag_independent :
    (Mane.fire_at_player Mane.envC4 0 Mane.pInfo0 Mane.npcC4 rngC4).damageApplied = true ∧
    (Mane.fire_at_player Mane.envC4 0 Mane.pInfo0 Mane.npcC4 rngC4).npc.experience =
      [Mane.ExpRec.fire false 0 false] := by
  norm_num [Mane.fire_at_player, Mane.record_experience, Mane.adapt_behavior,
    Mane.fireStats, randomRandom, Rng.nextFloat, Mane.envC4, Mane.npcC4,
    Mane.npcA0, Mane.pInfo0, rngC4, decide_eq_true_eq, decide_eq_false_iff_not]

/-- C8 (counterexample): a concrete death-then-respawn run in which
`die` — via `adapt_after_death` (src/mane.py line 609) — moves
`aggressiveness` from `0.5` to `0.7` before `respawn` runs, so after
respawning the tunable differs from its value before death, against the
claim's "unchanged from their values before death". -/
theorem respawn_after_death_changes_aggressiveness :
    ((Mane.respawn Mane.envC8 15
        (Mane.die Mane.envC8 10 Mane.npcA0 rngC8).1
        (Mane.die Mane.envC8 10 Mane.npcA0 rngC8).2).1).aggressiveness ≠
      Mane.npcA0.aggressiveness ∧
    ((Mane.respawn Mane.envC8 15
        (Mane.die Mane.envC8 10 Mane.npcA0 rngC8).1
        (Mane.die Mane.envC8 10 Mane.npcA0 rngC8).2).1).aggressiveness = 7/10 ∧
    Mane.npcA0.aggressiveness = 1/2 ∧
    ((Mane.respawn Mane.envC8 15
        (Mane.die Mane.envC8 10 Mane.npcA0 rngC8).1
        (Mane.die Mane.envC8 10 Mane.npcA0 rngC8).2).1).state = "patrol" ∧
    ((Mane.respawn Mane.envC8 15
        (Mane.die Mane.envC8 10 Mane.npcA0 rngC8).1
        (Mane.die Mane.envC8 10 Mane.npcA0 rngC8).2).1).health =
      Mane.npcA0.max_health := by
  norm_num [Mane.die, Mane.record_experience, Mane.adapt_behavior,
    Mane.fireStats, Mane.adapt_after_death, Mane.respawn,
    Mane.generate_patrol_path, Mane.genWaypoints, Mane.uniformCoord,
    Mane.GAME_MAP_SIZE, randomRandom, randomUniform, randomRandint,
    randomChoice, Rng.nextFloat, Rng.nextNat, Mane.envC8, Mane.npcA0,
    Mane.pInfo0, rngC8]

/-- C8 (amended): `respawn` itself resets health to `max_health` and
state to `'patrol'` and touches none of the adapted tunables —
`aggressiveness`, `accuracy` and `tactical_preference` keep the values
they have *at the respawn call* (i.e. after the death-time adaptation:
`die` runs `adapt_after_death`, which jitters `aggressiveness` and may
re-roll `tactical_preference` between death and respawn). -/
theorem respawn_keeps_adapted_tunables (env : Mane.Env) (now : ℚ)
    (s : Mane.ANpc) (g : Rng) :
    ((Mane.respawn env now s g).1).aggressiveness = s.aggressiveness ∧
    ((Mane.respawn env now s g).1).accuracy = s.accuracy ∧
    ((Mane.respawn env now s g).1).tactical_preference = s.tactical_preference ∧
    ((Mane.respawn env now s g).1).health = s.max_health ∧
    ((Mane.respawn env now s g).1).state = "patrol" ∧
    ((Mane.respawn env now s g).1).alive = true :=
  ⟨rfl, rfl, rfl, rfl, rfl, rfl⟩

/-- The accuracy stage only writes `accuracy`. -/
theorem adjustAccuracy_fields (hr : ℚ) (s : Mane.ANpc) :
    (Mane.adjustAccuracy hr s).health = s.health ∧
    (Mane.adjustAccuracy hr s).alive = s.alive ∧
    (Mane.adjustAccuracy hr s).aggressiveness = s.aggressiveness ∧
    (Mane.adjustAccuracy hr s).tactical_preference = s.tactical_preference := by
  unfold Mane.adjustAccuracy
  split_ifs <;> exact ⟨rfl, rfl, rfl, rfl⟩

/-- The tactical stage only writes `tactical_preference`. -/
theorem adjustTactical_fields (ad : ℚ) (s : Mane.ANpc) (g : Rng) :
    ((Mane.adjustTactical ad s g).1).health = s.health ∧
    ((Mane.adjustTactical ad s g).1).alive = s.alive ∧
    ((Mane.adjustTactical ad s g).1).accuracy = s.accuracy ∧
    ((Mane.adjustTactical ad s g).1).aggressiveness = s.aggressiveness := by
  unfold Mane.adjustTactical
  dsimp only []
  split_ifs <;> exact ⟨rfl, rfl, rfl, rfl⟩

/-- The aggressiveness stage only writes `aggressiveness`. -/
theorem adjustAggressiveness_fields (pm : ℚ) (s : Mane.ANpc) :
    (Mane.adjustAggressiveness pm s).health = s.health ∧
    (Mane.adjustAggressiveness pm s).alive = s.alive ∧
    (Mane.adjustAggressiveness pm s).accuracy = s.accuracy ∧
    (Mane.adjustAggressiveness pm s).tactical_preference = s.tactical_preference := by
  unfold Mane.adjustAggressiveness
  split_ifs <;> exact ⟨rfl, rfl, rfl, rfl⟩

/-- `adapt_behavior` only retunes the learning parameters: `health` and
`alive` are untouched on every path. -/
theorem adapt_behavior_keeps_vitals (s : Mane.ANpc) (g : Rng) :
    ((Mane.adapt_behavior s g).1).health = s.health ∧
    ((Mane.adapt_behavior s g).1).alive = s.alive := by
  unfold Mane.adapt_behavior
  dsimp only []
  split
  · constructor
    · exact ((adjustAggressiveness_fields _ _).1).trans
        ((adjustTactical_fields _ _ _).1.trans (adjustAccuracy_fields _ _).1)
    · exact ((adjustAggressiveness_fields _ _).2.1).trans
        ((adjustTactical_fields _ _ _).2.1.trans (adjustAccuracy_fields _ _).2.1)
  · exact ⟨rfl, rfl⟩

/-- `record_experience` only appends to the buffer and possibly adapts:
`health` and `alive` are untouched. -/
theorem record_experience_keeps_vitals (s : Mane.ANpc) (r : Mane.ExpRec) (g : Rng) :
    ((Mane.record_experience s r g).1).health = s.health ∧
    ((Mane.record_experience s r g).1).alive = s.alive := by
  unfold Mane.record_experience
  dsimp only []
  repeat' split
  all_goals first
    | exact adapt_behavior_keeps_vitals _ _
    | exact ⟨rfl, rfl⟩

/-- `adapt_after_death` only jitters the tunables: `health` and `alive`
are untouched. -/
theorem adapt_after_death_keeps_vitals (s : Mane.ANpc) (g : Rng) :
    ((Mane.adapt_after_death s g).1).health = s.health ∧
    ((Mane.adapt_after_death s g).1).alive = s.alive := by
  unfold Mane.adapt_after_death
  dsimp only []
  repeat' split
  all_goals exact ⟨rfl, rfl⟩

/-- `find_retreat_path` only replaces the waypoints: `health` and
`alive` are untouched. -/
theorem find_retreat_path_keeps_vitals (env : Mane.Env) (s : Mane.ANpc) (g : Rng) :
    ((Mane.find_retreat_path env s g).1).health = s.health ∧
    ((Mane.find_retreat_path env s g).1).alive = s.alive := by
  unfold Mane.find_retreat_path
  rcases env.player with _ | p <;> simp

/-- `die` on a live NPC marks it dead and never writes `health`
(src/mane.py lines 581-603: the method sets `alive`, `death_time`,
visuals, records a `'died'` experience and adapts, but contains no
assignment to `self.health`). -/
theorem die_kills (env : Mane.Env) (now : ℚ) (s : Mane.ANpc) (g : Rng)
    (h : s.alive = true) :
    ((Mane.die env now s g).1).alive = false ∧
    ((Mane.die env now s g).1).health = s.health := by
  unfold Mane.die
  simp only [h, reduceIte]
  rcases env.player with _ | p <;>
    exact ⟨((adapt_after_death_keeps_vitals _ _).2).trans
        (((record_experience_keeps_vitals _ _ _).2).trans rfl),
      ((adapt_after_death_keeps_vitals _ _).1).trans
        (((record_experience_keeps_vitals _ _ _).1).trans rfl)⟩

/-- C1 (counterexample): a live NPC with 100 health taking 150 damage
ends with `health = -50`, not `0`: neither `take_damage` nor `die`
clamps health (src/mane.py lines 638-659 and 581-603 contain no
`health = 0` assignment), so the claimed invariant `0 ≤ health` fails
while `alive == false` does hold. -/
theorem take_damage_overkill_no_clamp :
    ((Mane.take_damage Mane.envC1 0 150 Mane.npcA0 rng0).1).health = -50 ∧
    ((Mane.take_damage Mane.envC1 0 150 Mane.npcA0 rng0).1).health ≠ 0 ∧
    ((Mane.take_damage Mane.envC1 0 150 Mane.npcA0 rng0).1).alive = false := by
  norm_num [Mane.take_damage, Mane.find_retreat_path, Mane.genRetreat,
    Mane.find_hiding_spot_glob, Mane.find_hiding_spot, Mane.die,
    Mane.record_experience, Mane.adapt_behavior, Mane.adjustAccuracy,
    Mane.adjustTactical, Mane.adjustAggressiveness, Mane.fireStats,
    Mane.fireStatsStep, Mane.adapt_after_death, randomRandom, randomUniform,
    randomChoice, Rng.nextFloat, Rng.nextNat, Mane.envC1, Mane.npcA0, rng0,
    Mane.GAME_MAP_SIZE]

/-- C1 (amended): for every live NPC, `take_damage(npc, amount)` with
`amount ≥ health` results in `alive == false` and
`health == old health − amount` — which is `≤ 0` but in general **not**
`0` (no clamping), so `0 ≤ health` can be violated while
`alive == (health > 0)` does hold after the call. -/
theorem take_damage_overkill (env : Mane.Env) (now amount : ℚ) (s : Mane.ANpc)
    (g : Rng) (halive : s.alive = true) (hge : s.health ≤ amount) :
    ((Mane.take_damage env now amount s g).1).alive = false ∧
    ((Mane.take_damage env now amount s g).1).health = s.health - amount ∧
    ((Mane.take_damage env now amount s g).1).health ≤ 0 ∧
    (((Mane.take_damage env now amount s g).1).alive = true ↔
      0 < ((Mane.take_damage env now amount s g).1).health) := by
  have hh0 : s.health - amount ≤ 0 := by linarith
  have h30 : s.health - amount < (30:ℚ) := by linarith
  unfold Mane.take_damage
  simp only [halive, reduceIte]
  rw [if_pos h30]
  rcases hfr : Mane.find_retreat_path env
      { s with health := s.health - amount, state := "retreat", alive := true }
      g with ⟨s2, g2⟩
  have hv := find_retreat_path_keeps_vitals env
    { s with health := s.health - amount, state := "retreat", alive := true } g
  rw [hfr] at hv
  dsimp only [] at hv
  dsimp only []
  rw [if_pos (show s2.health ≤ 0 by rw [hv.1]; exact hh0)]
  have hd := die_kills env now s2 g2 (hv.2)
  refine ⟨hd.1, ?_, ?_, ?_⟩
  · rw [hd.2, hv.1]
  · rw [hd.2, hv.1]
    exact hh0
  · rw [hd.1, hd.2, hv.1]
    constructor
    · intro hfalse
      exact absurd hfalse (by simp)
    · intro hpos
      exact absurd hpos (by linarith)

/-- C1 witness: the amended statement at a concrete live NPC with 100
health hit for 150 damage. -/
theorem take_damage_overkill_witness :
    (Mane.npcA0.alive = true ∧ Mane.npcA0.health ≤ 150) ∧
    ((Mane.take_damage Mane.envC1 0 150 Mane.npcA0 rng0).1).alive = false ∧
    ((Mane.take_damage Mane.envC1 0 150 Mane.npcA0 rng0).1).health =
      Mane.npcA0.health - 150 :=
  ⟨⟨rfl, by norm_num [Mane.npcA0]⟩,
   (take_damage_overkill Mane.envC1 0 150 Mane.npcA0 rng0 rfl
     (by norm_num [Mane.npcA0])).1,
   (take_damage_overkill Mane.envC1 0 150 Mane.npcA0 rng0 rfl
     (by norm_num [Mane.npcA0])).2.1⟩

/-- Over a buffer whose fire records are all misses, the analysis loop
counts no hits and exactly one miss per fire record. -/
theorem fireStats_all_miss (l : List Mane.ExpRec) (acc : Mane.FireStats)
    (h : ∀ e ∈ l, Mane.isHitFire e = false) :
    (List.foldl Mane.fireStatsStep acc l).hits = acc.hits ∧
    (List.foldl Mane.fireStatsStep acc l).misses =
      acc.misses + l.countP Mane.isFire := by
  induction l generalizing acc with
  | nil => simp
  | cons e t ih =>
    have he := h e (List.mem_cons_self e t)
    have ht : ∀ x ∈ t, Mane.isHitFire x = false :=
      fun x hx => h x (List.mem_cons_of_mem _ hx)
    rcases e with ⟨hit, d, m⟩ | ⟨kp, dd, ta⟩
    · cases hit
      · have hrec := ih (Mane.fireStatsStep acc (Mane.ExpRec.fire false d m)) ht
        refine ⟨?_, ?_⟩
        · rw [List.foldl_cons, hrec.1]
          simp [Mane.fireStatsStep]
        · rw [List.foldl_cons, hrec.2]
          simp [Mane.fireStatsStep, List.countP_cons, Mane.isFire]
          omega
      · simp [Mane.isHitFire] at he
    · have hrec := ih (Mane.fireStatsStep acc (Mane.ExpRec.died kp dd ta)) ht
      refine ⟨?_, ?_⟩
      · rw [List.foldl_cons, hrec.1]
        simp [Mane.fireStatsStep]
      · rw [List.foldl_cons, hrec.2]
        simp [Mane.fireStatsStep, List.countP_cons, Mane.isFire]

/-- Below the 0.3 hit-rate threshold the accuracy stage applies the
capped `+0.05` step. -/
theorem adjustAccuracy_low (hr : ℚ) (s : Mane.ANpc) (h : hr < 3/10) :
    (Mane.adjustAccuracy hr s).accuracy = min (9/10) (s.accuracy + 1/20) := by
  unfold Mane.adjustAccuracy
  rw [if_pos h]

/-- C6: with at least 5 fire records in the buffer, all of them misses,
`adapt_behavior` sets `accuracy` to `min(0.9, accuracy + 0.05)`: the
accuracy never decreases (given the program invariant `accuracy ≤ 0.9`,
maintained by the initializer range `[0.5, 0.8]`, by both adjustment
branches and by the per-round scaling cap), increases strictly whenever
it is below the `0.9` cap, and stays at or below the cap. -/
theorem adapt_all_miss_raises_accuracy (s : Mane.ANpc) (g : Rng)
    (hacc : s.accuracy ≤ 9/10)
    (hn : 5 ≤ s.experience.countP Mane.isFire)
    (hmiss : ∀ e ∈ s.experience, Mane.isHitFire e = false) :
    ((Mane.adapt_behavior s g).1).accuracy = min (9/10) (s.accuracy + 1/20) ∧
    s.accuracy ≤ ((Mane.adapt_behavior s g).1).accuracy ∧
    (s.accuracy < 9/10 → s.accuracy < ((Mane.adapt_behavior s g).1).accuracy) ∧
    ((Mane.adapt_behavior s g).1).accuracy ≤ 9/10 := by
  have hstats := fireStats_all_miss s.experience ⟨0, 0, [], 0⟩ hmiss
  have hh : (Mane.fireStats s.experience).hits = 0 := by
    rw [Mane.fireStats]
    simpa using hstats.1
  have hm : 5 ≤ (Mane.fireStats s.experience).misses := by
    rw [Mane.fireStats]
    have h2 := hstats.2
    simp only [] at h2
    omega
  have hacc_eq : ((Mane.adapt_behavior s g).1).accuracy =
      min (9/10) (s.accuracy + 1/20) := by
    unfold Mane.adapt_behavior
    dsimp only []
    rw [if_pos (show (Mane.fireStats s.experience).hits +
      (Mane.fireStats s.experience).misses > 0 by omega)]
    exact ((adjustAggressiveness_fields _ _).2.2.1).trans
      (((adjustTactical_fields _ _ _).2.2.1).trans
        (adjustAccuracy_low _ _ (by rw [hh]; norm_num)))
  refine ⟨hacc_eq, ?_, ?_, ?_⟩
  · rw [hacc_eq]
    exact le_min hacc (by linarith)
  · intro hlt
    rw [hacc_eq]
    exact lt_min hlt (by linarith)
  · rw [hacc_eq]
    exact min_le_left _ _

/-- C6 witness: an NPC with accuracy `0.7` and five all-miss fire
records strictly gains accuracy from `adapt_behavior`. -/
theorem adapt_all_miss_raises_accuracy_witness :
    (Mane.npcC6.accuracy ≤ 9/10 ∧
      5 ≤ Mane.npcC6.experience.countP Mane.isFire ∧
      (∀ e ∈ Mane.npcC6.experience, Mane.isHitFire e = false) ∧
      Mane.npcC6.accuracy < 9/10) ∧
    Mane.npcC6.accuracy < ((Mane.adapt_behavior Mane.npcC6 rng0).1).accuracy :=
  ⟨⟨by norm_num [Mane.npcC6, Mane.npcA0], by decide, by decide,
    by norm_num [Mane.npcC6, Mane.npcA0]⟩,
   (adapt_all_miss_raises_accuracy Mane.npcC6 rng0
      (by norm_num [Mane.npcC6, Mane.npcA0]) (by decide) (by decide)).2.2.1
      (by norm_num [Mane.npcC6, Mane.npcA0])⟩

/-- Discarding the head of the float stream preserves goodness. -/
theorem Rng.Good.next_float {g : Rng} (h : g.Good) : (g.nextFloat).2.Good :=
  fun q hq => h q ((List.tail_sublist _).subset hq)

/-- One in-bounds patrol coordinate: the draw lands in `[-13, 13]` and
the advanced stream stays good. -/
theorem uniformCoord_spec (g : Rng) (hg : g.Good) :
    -13 ≤ (Mane.uniformCoord g).1 ∧ (Mane.uniformCoord g).1 ≤ 13 ∧
    (Mane.uniformCoord g).2.Good := by
  have hu : 0 ≤ g.floats.headD 0 ∧ g.floats.headD 0 ≤ 1 := by
    cases hf : g.floats with
    | nil => simp
    | cons a l =>
      have ha : a ∈ g.floats := by
        rw [hf]
        exact List.mem_cons_self a l
      simpa [hf] using hg a ha
  refine ⟨?_, ?_, hg.next_float⟩ <;>
  · simp only [Mane.uniformCoord, randomUniform, Rng.nextFloat,
      Mane.GAME_MAP_SIZE]
    nlinarith [hu.1, hu.2]

/-- The waypoint loop produces `n` in-bounds points and a good stream. -/
theorem genWaypoints_spec (n : ℕ) (g : Rng) (hg : g.Good) :
    (Mane.genWaypoints n g).1.length = n ∧
    (∀ w ∈ (Mane.genWaypoints n g).1, Mane.inBounds w) ∧
    (Mane.genWaypoints n g).2.Good := by
  induction n generalizing g with
  | zero => simpa [Mane.genWaypoints] using hg
  | succ k ih =>
    have hx := uniformCoord_spec g hg
    have hz := uniformCoord_spec (Mane.uniformCoord g).2 hx.2.2
    have hrest := ih (Mane.uniformCoord (Mane.uniformCoord g).2).2 hz.2.2
    unfold Mane.genWaypoints
    dsimp only []
    refine ⟨by simp [hrest.1], ?_, hrest.2.2⟩
    intro w hw
    rcases List.mem_cons.mp hw with rfl | hmem
    · exact ⟨hx.1, hx.2.1, rfl, hz.1, hz.2.1⟩
    · exact hrest.2.1 w hmem

/-- `generate_patrol_path` produces 3 to 6 in-bounds waypoints, resets
the cursor and leaves a good stream. -/
theorem generate_patrol_path_spec (s : Mane.ANpc) (g : Rng) (hg : g.Good) :
    3 ≤ ((Mane.generate_patrol_path s g).1).waypoints.length ∧
    ((Mane.generate_patrol_path s g).1).waypoints.length ≤ 6 ∧
    ((Mane.generate_patrol_path s g).1).current_waypoint = 0 ∧
    (∀ w ∈ ((Mane.generate_patrol_path s g).1).waypoints, Mane.inBounds w) ∧
    (Mane.generate_patrol_path s g).2.Good := by
  have hgen := genWaypoints_spec (3 + g.nextNat.1 % (6 - 3 + 1))
    (g.nextNat).2 hg
  have hmod : g.nextNat.1 % (6 - 3 + 1) < 4 := Nat.mod_lt _ (by norm_num)
  unfold Mane.generate_patrol_path randomRandint
  dsimp only []
  refine ⟨?_, ?_, rfl, hgen.2.1, hgen.2.2⟩
  · rw [hgen.1]
    omega
  · rw [hgen.1]
    omega

/-- The stuck check only touches `position`, `last_position` and
`stuck_timer`, and consumes at most two float draws. -/
theorem stuckCheck_spec (env : Mane.Env) (dt : ℚ) (s : Mane.ANpc) (g : Rng)
    (hg : g.Good) :
    ((Mane.stuckCheck env dt s g).1).state = s.state ∧
    ((Mane.stuckCheck env dt s g).1).waypoints = s.waypoints ∧
    ((Mane.stuckCheck env dt s g).1).current_waypoint = s.current_waypoint ∧
    ((Mane.stuckCheck env dt s g).1).alive = s.alive ∧
    (Mane.stuckCheck env dt s g).2.Good := by
  unfold Mane.stuckCheck
  dsimp only []
  split_ifs
  · exact ⟨rfl, rfl, rfl, rfl,
      fun q hq => hg q ((List.tail_sublist _).subset
        ((List.tail_sublist _).subset hq))⟩
  · exact ⟨rfl, rfl, rfl, rfl, hg⟩
  · exact ⟨rfl, rfl, rfl, rfl, hg⟩

/-- `look_for_player` only touches the perception bookkeeping fields:
the waypoint list and cursor pass through unchanged. -/
theorem look_for_player_keeps_waypoints (env : Mane.Env) (now : ℚ) (s : Mane.ANpc) :
    (Mane.look_for_player env now s).waypoints = s.waypoints ∧
    (Mane.look_for_player env now s).current_waypoint = s.current_waypoint := by
  unfold Mane.look_for_player
  dsimp only []
  repeat' split
  all_goals exact ⟨rfl, rfl⟩

/-- C9: (1) one `update` of a live `'patrol'` NPC with an empty
waypoint list leaves it with 3 to 6 in-bounds waypoints and a cursor
that is a valid index (whichever regeneration path ran); (2) on a
non-empty waypoint list with a valid cursor, `patrol_behavior` keeps
the list and keeps the cursor valid, advancing it cyclically modulo the
list length on reaching a waypoint. -/
theorem patrol_empty_waypoints_regenerated :
    (∀ (env : Mane.Env) (now dt : ℚ) (s : Mane.ANpc) (g : Rng),
      s.alive = true → s.state = "patrol" → s.waypoints = [] → g.Good →
        3 ≤ ((Mane.update env now dt s g).1).waypoints.length ∧
        ((Mane.update env now dt s g).1).waypoints.length ≤ 6 ∧
        ((Mane.update env now dt s g).1).current_waypoint <
          ((Mane.update env now dt s g).1).waypoints.length ∧
        (∀ w ∈ ((Mane.update env now dt s g).1).waypoints, Mane.inBounds w)) ∧
    (∀ (env : Mane.Env) (dt : ℚ) (s : Mane.ANpc) (g : Rng),
      s.waypoints ≠ [] → s.current_waypoint < s.waypoints.length →
        ((Mane.patrol_behavior env dt s g).1).waypoints = s.waypoints ∧
        ((Mane.patrol_behavior env dt s g).1).current_waypoint <
          ((Mane.patrol_behavior env dt s g).1).waypoints.length) := by
  constructor
  · intro env now dt s g halive hstate hwp hg
    unfold Mane.update
    simp only [halive, Bool.not_true, Bool.false_eq_true, if_false]
    rcases hsc : Mane.stuckCheck env dt s g with ⟨s1, g1⟩
    have hscs := stuckCheck_spec env dt s g hg
    rw [hsc] at hscs
    dsimp only [] at hscs
    obtain ⟨hst1, hwp1, _hcw1, _hal1, hg1⟩ := hscs
    dsimp only []
    rw [hst1, hstate]
    simp only [reduceIte]
    have hpbe : Mane.patrol_behavior env dt s1 g1 =
        Mane.generate_patrol_path s1 g1 := by
      unfold Mane.patrol_behavior
      rw [if_pos (show s1.waypoints = [] by rw [hwp1, hwp])]
    have hgps := generate_patrol_path_spec s1 g1 hg1
    rw [← hpbe] at hgps
    rcases hpb : Mane.patrol_behavior env dt s1 g1 with ⟨sp, gp⟩
    rw [hpb] at hgps
    dsimp only [] at hgps
    obtain ⟨h3, h6, hcw0, hin, hgp⟩ := hgps
    have hlf := look_for_player_keeps_waypoints env now sp
    dsimp only []
    unfold Mane.expireMemory
    dsimp only []
    split
    · split
      · have hg2 := generate_patrol_path_spec
          { Mane.look_for_player env now sp with
              last_seen_player_pos := none, state := "patrol" } gp hgp
        refine ⟨hg2.1, hg2.2.1, ?_, hg2.2.2.2.1⟩
        rw [hg2.2.2.1]
        exact lt_of_lt_of_le (by norm_num) hg2.1
      · refine ⟨?_, ?_, ?_, ?_⟩
        · rw [hlf.1]
          exact h3
        · rw [hlf.1]
          exact h6
        · rw [hlf.1, hlf.2, hcw0]
          omega
        · rw [hlf.1]
          exact hin
    · refine ⟨?_, ?_, ?_, ?_⟩
      · rw [hlf.1]
        exact h3
      · rw [hlf.1]
        exact h6
      · rw [hlf.1, hlf.2, hcw0]
        omega
      · rw [hlf.1]
        exact hin
  · intro env dt s g hne hcur
    unfold Mane.patrol_behavior
    rw [if_neg hne]
    dsimp only []
    split
    · exact ⟨rfl, Nat.mod_lt _ (List.length_pos.mpr hne)⟩
    · exact ⟨rfl, hcur⟩

/-- C9 witness: a live patrolling NPC with an empty waypoint list gets
a fresh valid path from one `update`, and a patrolling NPC with one
waypoint and cursor 0 keeps a valid cursor through `patrol_behavior`. -/
theorem patrol_empty_waypoints_regenerated_witness :
    (Mane.npcA0.alive = true ∧ Mane.npcA0.state = "patrol" ∧
      Mane.npcA0.waypoints = [] ∧ rngC9.Good) ∧
    3 ≤ ((Mane.update Mane.envC3 0 (1/60) Mane.npcA0 rngC9).1).waypoints.length ∧
    ((Mane.update Mane.envC3 0 (1/60) Mane.npcA0 rngC9).1).current_waypoint <
      ((Mane.update Mane.envC3 0 (1/60) Mane.npcA0 rngC9).1).waypoints.length ∧
    ((Mane.patrol_behavior Mane.envC3 (1/60)
        { Mane.npcA0 with waypoints := [Vec3.mk 1 1 1] } rng0).1).current_waypoint <
      ((Mane.patrol_behavior Mane.envC3 (1/60)
        { Mane.npcA0 with waypoints := [Vec3.mk 1 1 1] } rng0).1).waypoints.length :=
  ⟨⟨rfl, rfl, rfl, by norm_num [Rng.Good, rngC9]⟩,
   (patrol_empty_waypoints_regenerated.1 Mane.envC3 0 (1/60) Mane.npcA0 rngC9
      rfl rfl rfl (by norm_num [Rng.Good, rngC9])).1,
   (patrol_empty_waypoints_regenerated.1 Mane.envC3 0 (1/60) Mane.npcA0 rngC9
      rfl rfl rfl (by norm_num [Rng.Good, rngC9])).2.2.1,
   (patrol_empty_waypoints_regenerated.2 Mane.envC3 (1/60)
      { Mane.npcA0 with waypoints := [Vec3.mk 1 1 1] } rng0
      (by decide) (by decide)).2⟩
